import Mathlib

/-
  Shallow embedding of the DS3231 RTC driver's calendar-conversion core
  (src/Source/DS3231.c, src/Include/DS3231.h).

  Machine integers are modelled as Nat with explicit `% 2^w` where the C
  code can overflow (the uint16 `days` accumulator in DS3231_ToUnixTime and
  the uint32 result).  C array reads are modelled with `l[i]?`: an
  out-of-bounds access (undefined behaviour in C) yields `none`, and the
  whole conversion then yields `none`.  The C functions are `void` and
  communicate through output pointers; a path on which the output pointer
  is never written (the early `return` in DS3231_ToUnixTime) is likewise
  modelled as `none`.
-/

namespace DS3231

/-- The 12-entry month-length table, DS3231.c line 12. -/
def days_in_month : List Nat := [31, 28, 31, 30, 31, 30, 31, 31, 30, 31, 30, 31]

/-- The 12-entry weekday offset table, DS3231.c line 13. -/
def dow : List Nat := [0, 3, 2, 5, 0, 3, 5, 1, 4, 6, 2, 4]

/-- DS3231.h line 14. -/
def SECONDS_FROM_1970_TO_2000 : Nat := 946684800

/-- The DS3231_DateTime struct (DS3231.h lines 121-130), restricted to the
seven calendar fields used by the conversion functions.  `Day` is the
weekday (1-7), `Date` the day of month.  The `Enable` member (oscillator
flag) is I2C-related state that the conversion functions never read or
write, so it is left out of the calendar model. -/
structure DS3231_DateTime where
  Day : Nat
  Date : Nat
  Month : Nat
  Year : Nat
  Hour_24mode : Nat
  Minute : Nat
  Second : Nat
deriving DecidableEq, Repr

/-- DS3231_DecodeBCD, DS3231.c lines 719-721. -/
def DS3231_DecodeBCD (bin : Nat) : Nat :=
  ((bin &&& 0xF0) >>> 4) * 10 + (bin &&& 0x0F)

/-- DS3231_EncodeBCD, DS3231.c lines 728-730 (uint8 return, hence mod 256). -/
def DS3231_EncodeBCD (dec : Nat) : Nat :=
  (dec % 10 + ((dec / 10) <<< 4)) % 256

/-- The `for (i=1; i<months; i++) days += days_in_month[i-1]` loop of
DS3231_ToUnixTime (line 602-603).  `acc` is the uint16 `days` variable,
reduced mod 2^16 at each store.  Fuel `months + 1` always suffices since
`i` starts at 1 and increments each iteration. -/
def toUnixDaysLoop : Nat → Nat → Nat → Nat → Option Nat
  | 0, _, _, _ => none
  | fuel + 1, i, months, acc =>
    if i < months then
      match days_in_month[i - 1]? with
      | none => none
      | some d => toUnixDaysLoop fuel (i + 1) months ((acc + d) % 65536)
    else some acc

/-- DS3231_ToUnixTime, DS3231.c lines 584-611.  The C function is void and
returns early without writing `*unixtime` when Year < 2000; that path is
`none`.  `days` is uint16 (mod 2^16 at each store; `days -= 1` can wrap),
the final expression is computed in unsigned long and stored to uint32
(mod 2^32). -/
def DS3231_ToUnixTime (dt : DS3231_DateTime) : Option Nat :=
  if dt.Year < 2000 then none
  else
    let years := dt.Year - 2000
    let days0 := (dt.Date + 65535) % 65536
    match toUnixDaysLoop (dt.Month + 1) 1 dt.Month days0 with
    | none => none
    | some d1 =>
      let d2 := if 2 < dt.Month ∧ years % 4 = 0 then (d1 + 1) % 65536 else d1
      let d3 := (d2 + (365 * years + (years + 3) / 4)) % 65536
      some ((((d3 * 24 + dt.Hour_24mode) * 60 + dt.Minute) * 60 + dt.Second
              + SECONDS_FROM_1970_TO_2000) % 4294967296)

/-- The leap-year test of DS3231_ToDateTime (lines 631 and 651):
`currYear % 400 == 0 || (currYear % 4 == 0 && currYear % 100 != 0)`. -/
def leapFlag (y : Nat) : Bool :=
  y % 400 == 0 || (y % 4 == 0 && y % 100 != 0)

/-- The year-finding loop of DS3231_ToDateTime (lines 630-644): starting
at 1970, subtract 366 or 365 from `daysTillNow` until it is smaller than
the current year's length.  Each iteration strictly decreases
`daysTillNow`, so fuel `daysTillNow + 1` always suffices. -/
def yearLoopN : Nat → Nat → Nat → Option (Nat × Nat)
  | 0, _, _ => none
  | fuel + 1, daysTillNow, currYear =>
    if leapFlag currYear then
      if daysTillNow < 366 then some (currYear, daysTillNow)
      else yearLoopN fuel (daysTillNow - 366) (currYear + 1)
    else
      if daysTillNow < 365 then some (currYear, daysTillNow)
      else yearLoopN fuel (daysTillNow - 365) (currYear + 1)

/-- The flag==1 month loop of DS3231_ToDateTime (lines 657-673): February
(index 1) counts 29 days, other months come from the table.  `extraDays`
is a C int that stays non-negative (it is only decreased when the
subtraction would stay >= 0), so `extraDays - len < 0` is `extraDays < len`
on Nat.  A table access at index >= 12 is out of bounds: `none`.
Fuel 13 always suffices: `index` increments each iteration and any access
at index >= 12 stops the loop. -/
def monthLoopLeap : Nat → Nat → Nat → Nat → Option (Nat × Nat)
  | 0, _, _, _ => none
  | fuel + 1, extraDays, month, index =>
    if index = 1 then
      if extraDays < 29 then some (extraDays, month)
      else monthLoopLeap fuel (extraDays - 29) (month + 1) (index + 1)
    else
      match days_in_month[index]? with
      | none => none
      | some len =>
        if extraDays < len then some (extraDays, month)
        else monthLoopLeap fuel (extraDays - len) (month + 1) (index + 1)

/-- The flag==0 month loop of DS3231_ToDateTime (lines 676-684). -/
def monthLoopNon : Nat → Nat → Nat → Nat → Option (Nat × Nat)
  | 0, _, _, _ => none
  | fuel + 1, extraDays, month, index =>
    match days_in_month[index]? with
    | none => none
    | some len =>
      if extraDays < len then some (extraDays, month)
      else monthLoopNon fuel (extraDays - len) (month + 1) (index + 1)

/-- Date part of DS3231_ToDateTime (lines 625-696): year loop, month loop,
then the `extraDays > 0` / `== 0` assembly of (month, date).  In the C
else-branch `date = days_in_month[month - 1]` a `month` of 0 would index
with -1 (out of bounds), hence `none`. -/
def dateFromDays (daysTillNow : Nat) : Option (Nat × Nat × Nat) :=
  match yearLoopN (daysTillNow + 1) daysTillNow 1970 with
  | none => none
  | some (currYear, rd) =>
    match (if leapFlag currYear then monthLoopLeap 13 (rd + 1) 0 0
           else monthLoopNon 13 (rd + 1) 0 0) with
    | none => none
    | some (e, m) =>
      if 0 < e then some (currYear, m + 1, e)
      else if m = 2 ∧ leapFlag currYear then some (currYear, m, 29)
      else if m = 0 then none
      else
        match days_in_month[m - 1]? with
        | none => none
        | some dd => some (currYear, m, dd)

/-- Weekday part of DS3231_ToDateTime (lines 706-711):
`currYear -= month < 3; day = (y + y/4 - y/100 + y/400 + dow[month-1] + date) % 7`,
with 0 mapped to 7.  A `month` of 0 would index `dow` with -1: `none`. -/
def weekdayFromDate (currYear month date : Nat) : Option Nat :=
  if month = 0 then none
  else
    match dow[month - 1]? with
    | none => none
    | some t =>
      let y := currYear - (if month < 3 then 1 else 0)
      let wd := (y + y / 4 - y / 100 + y / 400 + t + date) % 7
      some (if wd = 0 then 7 else wd)

/-- DS3231_ToDateTime, DS3231.c lines 619-712, assembled from the pieces
above.  `extraTime = unixtime % 86400` feeds the hour/minute/second fields
(lines 702-704). -/
def DS3231_ToDateTime (unixtime : Nat) : Option DS3231_DateTime :=
  match dateFromDays (unixtime / 86400) with
  | none => none
  | some (currYear, month, date) =>
    match weekdayFromDate currYear month date with
    | none => none
    | some wd =>
      some { Day := wd, Date := date, Month := month, Year := currYear,
             Hour_24mode := unixtime % 86400 / 3600,
             Minute := unixtime % 86400 % 3600 / 60,
             Second := unixtime % 86400 % 3600 % 60 }

/-- The seven field legality checks of DS3231_SetDateTime (DS3231.c lines
491-524), in source order (Day, Date, Month, Year, Hour_24mode, Minute,
Second).  Each check is the source's bitwise-OR of the two comparisons;
`true` means the check passes (the encode branch is taken), `false` would
be the HAL_ERROR branch. -/
def DS3231_SetDateTime_checks (dt : DS3231_DateTime) : Bool :=
  (decide (1 ≤ dt.Day) || decide (dt.Day ≤ 7)) &&
  (decide (1 ≤ dt.Date) || decide (dt.Date ≤ 31)) &&
  (decide (1 ≤ dt.Month) || decide (dt.Month ≤ 12)) &&
  (decide (0 ≤ dt.Year) || decide (dt.Year ≤ 99)) &&
  (decide (0 ≤ dt.Hour_24mode) || decide (dt.Hour_24mode ≤ 23)) &&
  (decide (0 ≤ dt.Minute) || decide (dt.Minute ≤ 59)) &&
  (decide (0 ≤ dt.Second) || decide (dt.Second ≤ 59))

/-- Modelled from the spec (spec.md section 4.1, steps 2-6 of to_epoch):
cumulative non-leap month table, plus day_of_month - 1, plus one leap day
if month > 2 in a leap year of the 2000-based window, plus
365*y + (y+3)/4 for prior years. -/
def spec_total_days (dt : DS3231_DateTime) : Nat :=
  (days_in_month.take (dt.Month - 1)).sum + (dt.Date - 1)
  + (if 2 < dt.Month ∧ (dt.Year - 2000) % 4 = 0 then 1 else 0)
  + 365 * (dt.Year - 2000) + ((dt.Year - 2000) + 3) / 4

/-- Modelled from the spec (spec.md section 4.1, step 7 of to_epoch):
`((total_days * 24 + hour) * 60 + minute) * 60 + second`, a second count
anchored at 2000-01-01T00:00:00 with no additional constant offset. -/
def spec_epoch_no_offset (dt : DS3231_DateTime) : Nat :=
  ((spec_total_days dt * 24 + dt.Hour_24mode) * 60 + dt.Minute) * 60 + dt.Second

/-- Modelled from the spec (spec.md section 4.1, step 5 of to_broken_down):
the Gauss/Zeller-style weekday congruence with the fixed offset table,
year decremented by 1 for January and February, and 0 mapped to 7. -/
def spec_weekday (year month date : Nat) : Nat :=
  let y := year - (if month < 3 then 1 else 0)
  let r := (y + y / 4 - y / 100 + y / 400 + (dow[month - 1]?).getD 0 + date) % 7
  if r = 0 then 7 else r

/-- Leap-aware month length for the 2000-2099 window (spec.md section 3:
February is 29 days when `year % 4 == 0`, the 4-rule sufficing there). -/
def monthLength (year month : Nat) : Nat :=
  if month = 2 ∧ year % 4 = 0 then 29 else (days_in_month[month - 1]?).getD 0

/-- A valid broken-down date-time per spec.md section 3: year 2000-2099,
month 1-12, day valid for the month and year, hour 0-23, minute and
second 0-59. -/
def ValidDateTime (dt : DS3231_DateTime) : Prop :=
  2000 ≤ dt.Year ∧ dt.Year ≤ 2099 ∧ 1 ≤ dt.Month ∧ dt.Month ≤ 12 ∧
  1 ≤ dt.Date ∧ dt.Date ≤ monthLength dt.Year dt.Month ∧
  dt.Hour_24mode ≤ 23 ∧ dt.Minute ≤ 59 ∧ dt.Second ≤ 59

instance (dt : DS3231_DateTime) : Decidable (ValidDateTime dt) := by
  unfold ValidDateTime; infer_instance

end DS3231

namespace DS3231

/-- Claim C6: the epoch value 946684800 (2000-01-01T00:00:00 in the
1970-based convention) converts to year 2000, month 1, day 1, 00:00:00,
weekday 6 (Saturday). -/
theorem toDateTime_fixed_point_2000 :
    DS3231_ToDateTime 946684800 =
      some { Day := 6, Date := 1, Month := 1, Year := 2000,
             Hour_24mode := 0, Minute := 0, Second := 0 } := by
  decide

/-- Claim C2: refuted on the code.  The input 31449600
(1970-12-31T00:00:00, the last day of a year) drives the month loop past
the 12-entry `days_in_month` table: the C code reads `days_in_month[12]`
(undefined behaviour), modelled here as `none` — no valid calendar date is
produced. -/
theorem toDateTime_year_end_out_of_bounds :
    DS3231_ToDateTime 31449600 = none := by
  decide

/-- Claim C3: partially refuted on the code.  The April-30 month boundary
(input 1714435200 = 2024-04-30T00:00:00) is handled as the claim states —
the result is April 30, not a rollover into May — but the December-31
boundary (input 1735603200 = 2024-12-31T00:00:00), which the claim also
covers, runs the month loop off the end of the table (undefined
behaviour, modelled as `none`) instead of producing December 31. -/
theorem toDateTime_month_boundary :
    DS3231_ToDateTime 1714435200 =
      some { Day := 2, Date := 30, Month := 4, Year := 2024,
             Hour_24mode := 0, Minute := 0, Second := 0 } ∧
    DS3231_ToDateTime 1735603200 = none := by
  constructor <;> decide

/-- Claim C1: refuted on the code.  The valid broken-down time
2000-12-31T00:00:00 (weekday 7, Sunday, consistent with the date and with
the spec's weekday formula) maps to epoch value 978220800, but converting
back hits the out-of-bounds table read for the last day of a year: the
round trip produces no value instead of reproducing the input. -/
theorem round_trip_fails_dec31 :
    ValidDateTime { Day := 7, Date := 31, Month := 12, Year := 2000,
                    Hour_24mode := 0, Minute := 0, Second := 0 } ∧
    spec_weekday 2000 12 31 = 7 ∧
    DS3231_ToUnixTime { Day := 7, Date := 31, Month := 12, Year := 2000,
                        Hour_24mode := 0, Minute := 0, Second := 0 } =
      some 978220800 ∧
    DS3231_ToDateTime 978220800 = none := by
  refine ⟨by decide, by decide, by decide, by decide⟩

/-- Claim C5: for any input with year < 2000 (such as 1999), the
calendar-to-epoch conversion fails: the C function returns early without
ever writing `*unixtime` (modelled as `none`), so no negative or wrapped
epoch value is produced. -/
theorem toUnixTime_rejects_pre2000 (dt : DS3231_DateTime)
    (h : dt.Year < 2000) : DS3231_ToUnixTime dt = none := by
  unfold DS3231_ToUnixTime
  rw [if_pos h]

/-- Witness for C5 at year 1999. -/
theorem toUnixTime_rejects_pre2000_witness :
    DS3231_ToUnixTime { Day := 5, Date := 31, Month := 12, Year := 1999,
                        Hour_24mode := 23, Minute := 59, Second := 59 } = none :=
  toUnixTime_rejects_pre2000
    { Day := 5, Date := 31, Month := 12, Year := 1999,
      Hour_24mode := 23, Minute := 59, Second := 59 } (by decide)

/-- Claim C9: each of the seven range checks in DS3231_SetDateTime is a
disjunction `field >= min OR field <= max`, which every value satisfies,
so the validation passes for every input structure — the HAL_ERROR
branches are unreachable. -/
theorem setDateTime_checks_always_pass (dt : DS3231_DateTime) :
    DS3231_SetDateTime_checks dt = true := by
  unfold DS3231_SetDateTime_checks
  simp only [Bool.and_eq_true, Bool.or_eq_true, decide_eq_true_eq]
  omega

/-- Claim C10: decoding an encoded two-digit value is the identity for
0 <= d <= 99. -/
theorem bcd_round_trip (d : Nat) (h : d ≤ 99) :
    DS3231_DecodeBCD (DS3231_EncodeBCD d) = d := by
  revert h
  revert d
  decide

/-- Witness for C10 at d = 42. -/
theorem bcd_round_trip_witness :
    DS3231_DecodeBCD (DS3231_EncodeBCD 42) = 42 :=
  bcd_round_trip 42 (by decide)

/-- Claim C4: refuted on the code.  At the valid input 2000-01-01T00:00:00
the spec formula of steps 2-7 yields 0 (the count is anchored at
2000-01-01 with no constant offset), but DS3231_ToUnixTime yields
946684800: the code adds SECONDS_FROM_1970_TO_2000 (DS3231.c line 610). -/
theorem toUnixTime_no_offset_counterexample :
    ¬ DS3231_ToUnixTime { Day := 6, Date := 1, Month := 1, Year := 2000,
                          Hour_24mode := 0, Minute := 0, Second := 0 } =
        some (spec_epoch_no_offset
          { Day := 6, Date := 1, Month := 1, Year := 2000,
            Hour_24mode := 0, Minute := 0, Second := 0 }) := by
  decide

/-- In-range day counts make both machine-width reductions of
DS3231_ToUnixTime vanish: the uint16 day accumulator holds at most 36524
and the uint32 result stays below 2^32. -/
theorem unix_arith (v w hour minute second : Nat) (hv : v % 65536 = w)
    (hw : w ≤ 36524) (hh : hour ≤ 23) (hm : minute ≤ 59) (hs : second ≤ 59) :
    (((v % 65536 * 24 + hour) * 60 + minute) * 60 + second + 946684800) % 4294967296
      = ((w * 24 + hour) * 60 + minute) * 60 + second + 946684800 := by
  rw [hv]
  apply Nat.mod_eq_of_lt
  omega

/-- Claim C4 as amended: for every valid broken-down date-time,
DS3231_ToUnixTime produces exactly the spec's step 2-7 count PLUS the
constant 946,684,800 (SECONDS_FROM_1970_TO_2000), i.e. a second count
anchored at 1970-01-01T00:00:00. -/
theorem toUnixTime_formula (dt : DS3231_DateTime) (h : ValidDateTime dt) :
    DS3231_ToUnixTime dt =
      some (spec_epoch_no_offset dt + SECONDS_FROM_1970_TO_2000) := by
  obtain ⟨day, date, month, year, hour, minute, second⟩ := dt
  unfold ValidDateTime monthLength at h
  dsimp only at h
  obtain ⟨h1, h2, h3, h4, h5, h6, h7, h8, h9⟩ := h
  interval_cases month <;>
    simp_all [DS3231_ToUnixTime, toUnixDaysLoop, spec_epoch_no_offset,
      spec_total_days, days_in_month, SECONDS_FROM_1970_TO_2000] <;>
    (try split_ifs at *) <;>
    (apply unix_arith <;> omega)

/-- Witness for the amended C4 at the leap day 2024-02-29T00:00:00. -/
theorem toUnixTime_formula_witness :
    DS3231_ToUnixTime { Day := 4, Date := 29, Month := 2, Year := 2024,
                        Hour_24mode := 0, Minute := 0, Second := 0 } =
      some (spec_epoch_no_offset
              { Day := 4, Date := 29, Month := 2, Year := 2024,
                Hour_24mode := 0, Minute := 0, Second := 0 }
            + SECONDS_FROM_1970_TO_2000) :=
  toUnixTime_formula _ (by decide)

/-- A successful weekday computation yields exactly the spec's
Gauss/Zeller congruence. -/
theorem weekdayFromDate_eq_spec {cy m d wd : Nat}
    (h : weekdayFromDate cy m d = some wd) : wd = spec_weekday cy m d := by
  unfold weekdayFromDate at h
  by_cases hm : m = 0
  · rw [if_pos hm] at h
    cases h
  · rw [if_neg hm] at h
    cases hg : dow[m - 1]? with
    | none => rw [hg] at h; cases h
    | some t =>
      rw [hg] at h
      simp only [Option.some.injEq] at h
      unfold spec_weekday
      rw [hg]
      exact h.symm

/-- The non-leap month loop, entered with equal month and index counters,
stops with a leftover strictly below the current month's table entry. -/
theorem monthLoopNon_lt : ∀ (fuel e m : Nat) (p : Nat × Nat),
    monthLoopNon fuel e m m = some p → p.1 < (days_in_month[p.2]?).getD 0 := by
  intro fuel
  induction fuel with
  | zero => intro e m p h; cases h
  | succ f ih =>
    intro e m p h
    unfold monthLoopNon at h
    cases hg : days_in_month[m]? with
    | none => rw [hg] at h; cases h
    | some len =>
      rw [hg] at h
      dsimp only at h
      by_cases hlt : e < len
      · rw [if_pos hlt] at h
        cases h
        show e < (days_in_month[m]?).getD 0
        rw [hg]
        exact hlt
      · rw [if_neg hlt] at h
        exact ih _ _ _ h

/-- Inversion of the date part of DS3231_ToDateTime: a successful result
comes from a year-loop result and a month-loop result, assembled by one of
the three arms of lines 687-696 of DS3231.c. -/
theorem dateFromDays_inv {n cy mo da : Nat}
    (h : dateFromDays n = some (cy, mo, da)) :
    ∃ rd e m,
      yearLoopN (n + 1) n 1970 = some (cy, rd) ∧
      (if leapFlag cy then monthLoopLeap 13 (rd + 1) 0 0
       else monthLoopNon 13 (rd + 1) 0 0) = some (e, m) ∧
      ((0 < e ∧ mo = m + 1 ∧ da = e) ∨
       (e = 0 ∧ m = 2 ∧ leapFlag cy = true ∧ mo = 2 ∧ da = 29) ∨
       (e = 0 ∧ ¬(m = 2 ∧ leapFlag cy = true) ∧ 1 ≤ m ∧ mo = m ∧
        days_in_month[m - 1]? = some da)) := by
  unfold dateFromDays at h
  cases hy : yearLoopN (n + 1) n 1970 with
  | none => rw [hy] at h; cases h
  | some q =>
    obtain ⟨cy', rd⟩ := q
    rw [hy] at h
    dsimp only at h
    cases hml : (if leapFlag cy' then monthLoopLeap 13 (rd + 1) 0 0
                 else monthLoopNon 13 (rd + 1) 0 0) with
    | none => rw [hml] at h; cases h
    | some p =>
      obtain ⟨e, m⟩ := p
      rw [hml] at h
      dsimp only at h
      by_cases he : 0 < e
      · rw [if_pos he] at h
        simp only [Option.some.injEq, Prod.mk.injEq] at h
        obtain ⟨rfl, hmo, hda⟩ := h
        exact ⟨rd, e, m, rfl, hml, Or.inl ⟨he, hmo.symm, hda.symm⟩⟩
      · rw [if_neg he] at h
        by_cases hfl : m = 2 ∧ leapFlag cy' = true
        · rw [if_pos hfl] at h
          simp only [Option.some.injEq, Prod.mk.injEq] at h
          obtain ⟨rfl, hmo, hda⟩ := h
          exact ⟨rd, e, m, rfl, hml,
            Or.inr (Or.inl ⟨by omega, hfl.1, hfl.2, hmo.symm.trans hfl.1, hda.symm⟩)⟩
        · rw [if_neg hfl] at h
          by_cases hm0 : m = 0
          · rw [if_pos hm0] at h; cases h
          · rw [if_neg hm0] at h
            cases hg : days_in_month[m - 1]? with
            | none => rw [hg] at h; cases h
            | some dd =>
              rw [hg] at h
              simp only [Option.some.injEq, Prod.mk.injEq] at h
              obtain ⟨rfl, hmo, hda⟩ := h
              exact ⟨rd, e, m, rfl, hml,
                Or.inr (Or.inr ⟨by omega, hfl, by omega, hmo.symm, hda ▸ hg⟩)⟩

/-- Claim C7: every weekday that DS3231_ToDateTime produces equals the
spec's Gauss/Zeller congruence over the produced year, month and day; in
particular 2024-01-01 (epoch 1704067200) yields Monday (1) and 2024-12-25
(epoch 1735084800) yields Wednesday (3). -/
theorem weekday_formula :
    (∀ (u : Nat) (dt : DS3231_DateTime), DS3231_ToDateTime u = some dt →
       dt.Day = spec_weekday dt.Year dt.Month dt.Date) ∧
    Option.map DS3231_DateTime.Day (DS3231_ToDateTime 1704067200) = some 1 ∧
    Option.map DS3231_DateTime.Day (DS3231_ToDateTime 1735084800) = some 3 := by
  refine ⟨?_, by decide, by decide⟩
  intro u dt h
  unfold DS3231_ToDateTime at h
  cases hd : dateFromDays (u / 86400) with
  | none => rw [hd] at h; cases h
  | some p =>
    obtain ⟨cy, mo, da⟩ := p
    rw [hd] at h
    dsimp only at h
    cases hw : weekdayFromDate cy mo da with
    | none => rw [hw] at h; cases h
    | some wd =>
      rw [hw] at h
      dsimp only at h
      cases h
      exact weekdayFromDate_eq_spec hw

/-- Witness for C7 at epoch 1704067200 (2024-01-01T00:00:00). -/
theorem weekday_formula_witness :
    ({ Day := 1, Date := 1, Month := 1, Year := 2024, Hour_24mode := 0,
       Minute := 0, Second := 0 } : DS3231_DateTime).Day =
      spec_weekday 2024 1 1 :=
  weekday_formula.1 1704067200
    { Day := 1, Date := 1, Month := 1, Year := 2024, Hour_24mode := 0,
      Minute := 0, Second := 0 } (by decide)

/-- In a year whose leap flag is false, DS3231_ToDateTime can never output
February 29: the non-leap month loop leaves at most 28 days in February. -/
theorem no_feb29_of_nonleap (y : Nat) (hy : leapFlag y = false) :
    ∀ (u : Nat) (dt : DS3231_DateTime), DS3231_ToDateTime u = some dt →
      dt.Year = y → ¬(dt.Month = 2 ∧ dt.Date = 29) := by
  intro u dt h hyr hbad
  unfold DS3231_ToDateTime at h
  cases hd : dateFromDays (u / 86400) with
  | none => rw [hd] at h; cases h
  | some p =>
    obtain ⟨cy, mo, da⟩ := p
    rw [hd] at h
    dsimp only at h
    cases hw : weekdayFromDate cy mo da with
    | none => rw [hw] at h; cases h
    | some wd =>
      rw [hw] at h
      dsimp only at h
      cases h
      dsimp only at hyr hbad
      obtain ⟨hmo, hda⟩ := hbad
      obtain ⟨rd, e, m, hyl, hml, hcases⟩ := dateFromDays_inv hd
      have hflag : leapFlag cy = false := by rw [hyr]; exact hy
      rw [hflag] at hml
      simp only [Bool.false_eq_true, if_false] at hml
      have hlt : e < (days_in_month[m]?).getD 0 :=
        monthLoopNon_lt 13 (rd + 1) 0 (e, m) hml
      rcases hcases with ⟨he, hmo', hda'⟩ | ⟨_, _, hfl, _, _⟩ | ⟨he, _, hm1, hmo', hda'⟩
      · have hm : m = 1 := by omega
        rw [hm] at hlt
        have h28 : (days_in_month[1]?).getD 0 = 28 := rfl
        rw [h28] at hlt
        omega
      · rw [hflag] at hfl
        cases hfl
      · have hm : m = 2 := by omega
        rw [hm] at hda'
        have h28 : days_in_month[2 - 1]? = some 28 := rfl
        rw [h28] at hda'
        cases hda'
        omega

/-- Claim C8: 2000-02-29 and 2024-02-29 are reachable outputs of
DS3231_ToDateTime (from epochs 951782400 and 1709164800), while no input
ever produces 2001-02-29 or 2023-02-29. -/
theorem leap_year_boundary :
    DS3231_ToDateTime 951782400 =
      some { Day := 2, Date := 29, Month := 2, Year := 2000,
             Hour_24mode := 0, Minute := 0, Second := 0 } ∧
    DS3231_ToDateTime 1709164800 =
      some { Day := 4, Date := 29, Month := 2, Year := 2024,
             Hour_24mode := 0, Minute := 0, Second := 0 } ∧
    (∀ (u : Nat) (dt : DS3231_DateTime), DS3231_ToDateTime u = some dt →
       dt.Year = 2001 → ¬(dt.Month = 2 ∧ dt.Date = 29)) ∧
    (∀ (u : Nat) (dt : DS3231_DateTime), DS3231_ToDateTime u = some dt →
       dt.Year = 2023 → ¬(dt.Month = 2 ∧ dt.Date = 29)) :=
  ⟨by decide, by decide,
   no_feb29_of_nonleap 2001 (by decide), no_feb29_of_nonleap 2023 (by decide)⟩

/-- Witness for C8's universal parts at epoch 983404800
(2001-03-01T00:00:00). -/
theorem leap_year_boundary_witness :
    ¬(({ Day := 4, Date := 1, Month := 3, Year := 2001, Hour_24mode := 0,
         Minute := 0, Second := 0 } : DS3231_DateTime).Month = 2 ∧
      ({ Day := 4, Date := 1, Month := 3, Year := 2001, Hour_24mode := 0,
         Minute := 0, Second := 0 } : DS3231_DateTime).Date = 29) :=
  leap_year_boundary.2.2.1 983404800
    { Day := 4, Date := 1, Month := 3, Year := 2001, Hour_24mode := 0,
      Minute := 0, Second := 0 } (by decide) (by decide)

end DS3231
